import Mathlib

/-!
Verification of the large-payload client pipeline of the
blk-hacking-ind-narender-keswani repository: the size-adaptive JSON
ingestion path (`JsonInput.jsx`, `jsonParser.worker.js`), the retrying
transport client (`services/api.js`), the windowed renderer
(`VirtualTable.jsx`) and the shared state store (`store/appStore.js`),
shallowly embedded in Lean.
-/

namespace BlkPipeline

/-! ## Transport client (`src/frontend/src/services/api.js`)

The axios response interceptor:
```
api.interceptors.response.use(null, async (error) => {
  const config = error.config
  if (!config) return Promise.reject(error)
  config._retryCount = (config._retryCount || 0) + 1
  if (config._retryCount <= 3 && (!error.response || error.response.status >= 500)) {
    await new Promise((r) => setTimeout(r, 1000 * config._retryCount))
    return api(config)
  }
  return Promise.reject(error)
})
```
An attempt either succeeds with a response or fails with an error
carrying an optional HTTP status (`none` models a network-level failure
with no response at all).  The `tag` field gives each concrete error
object an identity, so that propagating the error "unchanged" is a
meaningful statement. -/

structure HttpError where
  status : Option Nat
  tag : Nat
deriving DecidableEq, Repr

/-- Outcome of one transport attempt (attempt numbers are 0-based). -/
inductive AttemptResult (R : Type) where
  | ok (resp : R)
  | err (e : HttpError)
deriving Repr

/-- The interceptor's retry condition: `!error.response || error.response.status >= 500`. -/
def shouldRetry (e : HttpError) : Bool :=
  match e.status with
  | none => true
  | some s => decide (500 ≤ s)

/-- Observable result of a `send`: the backoff delays slept (in ms, in
order), the total number of attempts made, and the final resolution. -/
structure SendOutcome (R : Type) where
  delays : List Nat
  attempts : Nat
  result : Except HttpError R
deriving Repr

/-- The retry loop of the interceptor.  `k` is the 0-based index of the
attempt about to be made (so after its failure `config._retryCount = k + 1`),
and `m` is the number of retries still allowed (`m = 3 - k` on every
reachable call, mirroring `config._retryCount <= 3`).  On a retriable
failure the interceptor sleeps `1000 * (k + 1)` ms and re-sends. -/
def sendAux {R : Type} (transport : Nat → AttemptResult R) : Nat → Nat → SendOutcome R
  | k, 0 =>
    match transport k with
    | .ok r => ⟨[], k + 1, .ok r⟩
    | .err e => ⟨[], k + 1, .error e⟩
  | k, m + 1 =>
    match transport k with
    | .ok r => ⟨[], k + 1, .ok r⟩
    | .err e =>
      if shouldRetry e then
        let rest := sendAux transport (k + 1) m
        ⟨1000 * (k + 1) :: rest.delays, rest.attempts, rest.result⟩
      else ⟨[], k + 1, .error e⟩

/-- `send` makes the first attempt with up to 3 retries allowed
(`config._retryCount <= 3`). -/
def send {R : Type} (transport : Nat → AttemptResult R) : SendOutcome R :=
  sendAux transport 0 3

/-- A transport that always answers 400 (client error), each attempt
producing its own distinct error object. -/
def t400 : Nat → AttemptResult Nat :=
  fun k => .err ⟨some 400, k⟩

/-- The spec's mock transport: 500 on attempts 0 and 1, success on attempt 2. -/
def mock500 : Nat → AttemptResult Nat :=
  fun k => if k < 2 then .err ⟨some 500, k⟩ else .ok 42

/-! ## Ingestion controller (`src/frontend/src/components/JsonInput.jsx`)
and background decoder (`src/frontend/src/workers/jsonParser.worker.js`)

The host decoder `JSON.parse` is a parameter
`decode : String → Except String V`: `.ok v` is the structured value it
returns, `.error m` is the exception message it throws on malformed text.
`V` is the type of decoded structured values.

The observable state of one `JsonInput` instance together with its
parent: `rawText` and `error` are the component's `useState` cells,
`debouncedText` is the value of `useDebounce(rawText, 300)`, `doc` is the
parent's last accepted ParsedDocument (what the `onParsed` callback
stored), `onParsedCalls` logs every invocation of `onParsed`,
`decodeAttempts` counts every decode attempt (inline or dispatched) and
`workersSpawned` counts `new Worker(...)` constructions. -/

structure InputState (V : Type) where
  rawText : String
  debouncedText : String
  error : Option String
  doc : Option V
  onParsedCalls : List V
  decodeAttempts : Nat
  workersSpawned : Nat

/-- The initial state of a fresh `JsonInput` (both text cells start `''`,
no error, no accepted document yet). -/
def initState : InputState Nat :=
  ⟨"", "", none, none, [], 0, 0⟩

/-- The delay handed to `useDebounce` on line 9 of `JsonInput.jsx`. -/
def debounceDelayMs : Nat := 300

/-- `parseJSON` from `JsonInput.jsx`: try `JSON.parse`; on success clear
the error and hand the value to `onParsed`; on exception store the
exception's message as the error. -/
def parseJSON {V : Type} (decode : String → Except String V) (t : String)
    (s : InputState V) : InputState V :=
  match decode t with
  | .ok v => { s with error := none, doc := some v, onParsedCalls := s.onParsedCalls ++ [v] }
  | .error m => { s with error := some m }

/-- How a decode attempt was executed: inline on the caller's thread
(carrying the synchronous result), or dispatched to a background worker. -/
inductive DecodeStep (V : Type) where
  | inline (result : Except String V)
  | dispatched (text : String)

/-- `parseWithWorker` from `JsonInput.jsx`: texts longer than 100000
characters are posted to a freshly constructed worker; all others are
decoded synchronously via `parseJSON`.  The `DecodeStep` component
records which path ran. -/
def parseWithWorker {V : Type} (decode : String → Except String V) (t : String)
    (s : InputState V) : InputState V × DecodeStep V :=
  if 100000 < t.length then
    ({ s with decodeAttempts := s.decodeAttempts + 1,
              workersSpawned := s.workersSpawned + 1 },
      .dispatched t)
  else
    ({ parseJSON decode t s with decodeAttempts := s.decodeAttempts + 1 },
      .inline (decode t))

/-- The worker's reply message: `{success: true, data}` or
`{success: false, error}`. -/
inductive WorkerReply (V : Type) where
  | success (data : V)
  | failure (error : String)

/-- `self.onmessage` from `jsonParser.worker.js`: the list of messages the
worker posts back for one received text.  Every decode exception is
caught inside the worker and becomes a `{success: false}` reply. -/
def workerBody {V : Type} (decode : String → Except String V) (t : String) :
    List (WorkerReply V) :=
  match decode t with
  | .ok parsed => [.success parsed]
  | .error m => [.failure m]

/-- The main-thread `worker.onmessage` handler (run after
`worker.terminate()`): a success reply clears the error and hands the
data to `onParsed`; a failure reply stores the reported message. -/
def handleWorkerMessage {V : Type} (r : WorkerReply V) (s : InputState V) : InputState V :=
  match r with
  | .success v => { s with error := none, doc := some v, onParsedCalls := s.onParsedCalls ++ [v] }
  | .failure m => { s with error := some m }

/-- Lifecycle events of one background-decoder instance. -/
inductive WorkerEvent (V : Type) where
  | spawn
  | post (t : String)
  | reply (r : WorkerReply V)
  | terminate

def isSpawn {V : Type} : WorkerEvent V → Bool
  | .spawn => true
  | _ => false

def isReply {V : Type} : WorkerEvent V → Bool
  | .reply _ => true
  | _ => false

/-- One full large-decode round trip: construct a fresh worker, post the
text, receive its replies (the handler terminates the worker upon the
first reply, then applies the state update), and the resulting event
trace of the worker instance. -/
def largeDecode {V : Type} (decode : String → Except String V) (t : String)
    (s : InputState V) : InputState V × List (WorkerEvent V) :=
  let replies := workerBody decode t
  (replies.foldl (fun st r => handleWorkerMessage r st) s,
    .spawn :: .post t :: (replies.map WorkerEvent.reply ++ [.terminate]))

/-- The user-visible events of `JsonInput.jsx`.  `typing` is the textarea
`onChange`; `debounceFire` is the `useDebounce` timer elapsing after a
300 ms quiet window; `parseClick` is the Parse JSON button
(`handleParse`); `pasteText` is a successful clipboard read
(`handlePaste`); `uploadText` is `FileReader.onload` (`handleFileUpload`);
`loadSample` is `handleLoadSample`, whose `text` argument stands for
`JSON.stringify(sampleData, null, 2)`. -/
inductive InputEvent (V : Type) where
  | typing (val : String)
  | debounceFire
  | parseClick
  | pasteText (t : String)
  | uploadText (t : String)
  | loadSample (sample : V) (text : String)

/-- JS truthiness of `rawText.trim()`: the trimmed string is empty — and
the guard falsy — exactly when every character is whitespace. -/
def isBlank (t : String) : Bool :=
  t.data.all Char.isWhitespace

/-- One step of the `JsonInput` component, translated handler by handler:
`handleChange` only stores the text; the debounce timer only refreshes
`debouncedText` (which no other handler reads); `handleParse` decodes
`rawText` when its trim is truthy; paste and upload store the text and
decode it immediately; `handleLoadSample` stores the pretty-printed text
and hands the sample object straight to `onParsed` without any decode. -/
def step {V : Type} (decode : String → Except String V) :
    InputEvent V → InputState V → InputState V
  | .typing val, s => { s with rawText := val }
  | .debounceFire, s => { s with debouncedText := s.rawText }
  | .parseClick, s =>
    if isBlank s.rawText then s else (parseWithWorker decode s.rawText s).1
  | .pasteText t, s => (parseWithWorker decode t { s with rawText := t }).1
  | .uploadText t, s => (parseWithWorker decode t { s with rawText := t }).1
  | .loadSample v text, s =>
    { s with rawText := text, error := none, doc := some v,
             onParsedCalls := s.onParsedCalls ++ [v] }

/-- A concrete stand-in for `JSON.parse` used by witnesses: accepts
exactly the text `"[1]"`. -/
def cDecodeNat : String → Except String Nat :=
  fun t => if t = "[1]" then .ok 1 else .error "Unexpected token"

/-- A 100001-character text, above the worker threshold. -/
def bigText : String :=
  ⟨List.replicate 100001 'x'⟩

/-- A state holding a previously accepted ParsedDocument (the value 7). -/
def docState : InputState Nat :=
  { initState with doc := some 7, onParsedCalls := [7] }

/-- A state in which the user has typed the text `"[1]"`. -/
def typedState : InputState Nat :=
  { initState with rawText := "[1]" }

/-! ## Windowed renderer (`src/frontend/src/components/VirtualTable.jsx`)

`VirtualTable` renders a pinned header, a `react-window` `FixedSizeList`
with `height`, `itemSize` and `itemCount = data.length`, and a row-count
footer — unless the collection is null or empty, in which case it
returns a single "No data to display" placeholder. -/

/-- A column spec entry: `{key, label, optional width}` (the optional
render-transform is irrelevant to the claims). -/
structure ColumnSpec where
  key : String
  label : String
  width : Option String

/-- What one `VirtualTable` render pass produces: either the bare
"no data" placeholder, or a table carrying the pinned header columns,
the number of mounted row slots, and the footer's row count. -/
inductive TableView where
  | noData
  | table (header : List ColumnSpec) (mountedSlots : Nat) (footerRowCount : Nat)

/-- Modelled from the spec: the windowing arithmetic lives inside the
external `react-window` `FixedSizeList`, whose source is not part of this
repository; §4.4 of the spec gives its contract.  First mounted row index
for scroll offset `s` and row height `R`, with `o` rows of overscan
before it (clamped at 0 by natural subtraction). -/
def windowStart (R s o : Nat) : Nat :=
  s / R - o

/-- Modelled from the spec: last mounted row index — the last row
intersecting the viewport `[s, s + H)`, plus `o` rows of overscan,
clamped to the collection's last index. -/
def windowStop (N H R s o : Nat) : Nat :=
  min (N - 1) ((s + H - 1) / R + o)

/-- Modelled from the spec: the number of live (mounted) presentation row
slots of the windowed region for `N` rows, viewport height `H`, row
height `R`, scroll offset `s` and per-side overscan `o`. -/
def renderedSlotCount (N H R s o : Nat) : Nat :=
  windowStop N H R s o + 1 - windowStart R s o

/-- The number of rows fully or partially covering the viewport:
`ceil(H / R)`. -/
def ceilDiv (H R : Nat) : Nat :=
  (H + R - 1) / R

/-- The total overscan margin of the window: `o` extra rows on each side
plus the one extra partially-visible row a misaligned scroll offset can
expose. -/
def overscanMargin (o : Nat) : Nat :=
  2 * o + 1

/-- `VirtualTable`, translated: `if (!data || data.length === 0)` render
the placeholder, otherwise the header, the windowed list and the footer.
`data = none` models a null/undefined `data` prop. -/
def renderTable (data : Option (List (List String))) (columns : List ColumnSpec)
    (H R s o : Nat) : TableView :=
  match data with
  | none => .noData
  | some rows =>
    if rows.length = 0 then .noData
    else .table columns (renderedSlotCount rows.length H R s o) rows.length

/-! ## Shared state store (`src/frontend/src/store/appStore.js`)

One slice per field of the zustand store; `loading` is the map from
operation key to in-flight flag (`loading: {}` initially, so every
absent key reads as false — modelled as a total function defaulting to
`false`).  `V` is the type of transaction records, `Rt` the type of the
remote service's result payloads. -/

structure Store (V Rt : Type) where
  transactions : List V
  validTransactions : List V
  invalidTransactions : List V
  filterResult : Option Rt
  npsResult : Option Rt
  indexResult : Option Rt
  activeSection : String
  loading : String → Bool
  performanceMetrics : Option Rt

/-- `setTransactions` from `appStore.js`. -/
def setTransactions {V Rt : Type} (t : List V) (s : Store V Rt) : Store V Rt :=
  { s with transactions := t }

/-- `setValidationResult` from `appStore.js`. -/
def setValidationResult {V Rt : Type} (valid invalid : List V) (s : Store V Rt) :
    Store V Rt :=
  { s with validTransactions := valid, invalidTransactions := invalid }

/-- `setFilterResult` from `appStore.js`. -/
def setFilterResult {V Rt : Type} (r : Rt) (s : Store V Rt) : Store V Rt :=
  { s with filterResult := some r }

/-- `setLoading` from `appStore.js`:
`set((state) => ({ loading: { ...state.loading, [key]: val } }))` —
the old loading object spread with the one key overridden. -/
def setLoading {V Rt : Type} (key : String) (val : Bool) (s : Store V Rt) :
    Store V Rt :=
  { s with loading := fun q => if q = key then val else s.loading q }

/-- The zustand store's initial state. -/
def initStore : Store Nat Nat :=
  ⟨[], [], [], none, none, none, "parser", fun _ => false, none⟩

/-! ## The four asynchronous UI actions and their loading flags

Each handler follows the same shape: guard clauses, `setLoading(key, true)`,
`try { await api...; store the result } catch { toast } finally
{ setLoading(key, false) }`.  The settled transport call is a parameter
`r : Except HttpError _` (`.error` covers a rejection after exhausted
retries). -/

/-- `handleSubmit` from `TransactionParser` (src/unnamed/part_002):
guard `if (!expenses) return`, then parse via the API; on success store
the response in the `transactions` slice. -/
def handleSubmit {V Rt : Type} (expenses : Option (List V))
    (r : Except HttpError (List V)) (s : Store V Rt) : Store V Rt :=
  match expenses with
  | none => s
  | some _ =>
    let s1 := setLoading "parse" true s
    match r with
    | .ok data => setLoading "parse" false (setTransactions data s1)
    | .error _ => setLoading "parse" false s1

/-- `handleValidate` from `TransactionValidator.jsx`: guard
`if (!transactions.length)`, then validate; on success store the valid
and invalid lists. -/
def handleValidate {V Rt : Type} (r : Except HttpError (List V × List V))
    (s : Store V Rt) : Store V Rt :=
  if s.transactions.length = 0 then s
  else
    let s1 := setLoading "validate" true s
    match r with
    | .ok d => setLoading "validate" false (setValidationResult d.1 d.2 s1)
    | .error _ => setLoading "validate" false s1

/-- `handleFilter` from `TemporalFilter.jsx`: guards on parsed
transactions and on the q/p/k configuration, then filters. -/
def handleFilter {V Rt C : Type} (filterConfig : Option C)
    (r : Except HttpError Rt) (s : Store V Rt) : Store V Rt :=
  if s.transactions.length = 0 then s
  else
    match filterConfig with
    | none => s
    | some _ =>
      let s1 := setLoading "filter" true s
      match r with
      | .ok d => setLoading "filter" false (setFilterResult d s1)
      | .error _ => setLoading "filter" false s1

/-- `handleCalculate` from `ReturnsCalculator.jsx`: guard on the input,
then both returns calls; the nps/index results land in component-local
state, so only the loading slice of the store changes. -/
def handleCalculate {V Rt I : Type} (inputData : Option I)
    (r : Except HttpError (Rt × Rt)) (s : Store V Rt) : Store V Rt :=
  match inputData with
  | none => s
  | some _ =>
    let s1 := setLoading "returns" true s
    match r with
    | .ok _ => setLoading "returns" false s1
    | .error _ => setLoading "returns" false s1

/-! ## Transport-client lemmas -/

/-- Shape of every retry loop run: the attempt count is one more per
delay slept, at most `m` retries happen, and the delays are
`1000 * (k+1), 1000 * (k+2), ...` — one linear-backoff delay per retry. -/
theorem sendAux_shape {R : Type} (t : Nat → AttemptResult R) (m : Nat) :
    ∀ k,
      (sendAux t k m).attempts = k + 1 + (sendAux t k m).delays.length ∧
      (sendAux t k m).delays.length ≤ m ∧
      (sendAux t k m).delays =
        (List.range' (k + 1) (sendAux t k m).delays.length).map (fun n => 1000 * n) := by
  induction m with
  | zero =>
    intro k
    cases h : t k <;> simp [sendAux, h]
  | succ m ih =>
    intro k
    cases h : t k with
    | ok r => simp [sendAux, h]
    | err e =>
      by_cases hr : shouldRetry e
      · obtain ⟨ha, hl, hd⟩ := ih (k + 1)
        simp only [sendAux, h, hr, if_true, List.length_cons]
        refine ⟨by omega, by omega, ?_⟩
        rw [List.range'_succ, List.map_cons, ← hd]
      · simp [sendAux, h, hr]

/-- Whenever the retry loop rejects, the rejection value is exactly the
error object the transport produced at the final attempt. -/
theorem sendAux_error_src {R : Type} (t : Nat → AttemptResult R) (m : Nat) :
    ∀ k e, (sendAux t k m).result = .error e →
      t ((sendAux t k m).attempts - 1) = .err e := by
  induction m with
  | zero =>
    intro k e h
    cases ht : t k <;> simp [sendAux, ht] at h ⊢
    exact h
  | succ m ih =>
    intro k e h
    cases ht : t k with
    | ok r => simp [sendAux, ht] at h
    | err e0 =>
      by_cases hr : shouldRetry e0
      · simp only [sendAux, ht, hr, if_true] at h ⊢
        exact ih (k + 1) e h
      · simp [sendAux, ht, hr] at h ⊢
        exact h

/-- C2: every request through the transport client retries only on
network-level failure (no response) or a status ≥ 500, at most 3 retries
are made (so attempts = 1 + retries ≤ 4), the delay before retry `n` is
`1000 ms * n` (1 s, 2 s, 3 s), a success on the first attempt resolves
with zero retries, a 4xx on the first attempt rejects immediately with
zero retries, and the 500-500-ok mock transport resolves after exactly 3
attempts with delays 1 s and 2 s. -/
theorem c2_transport_retry_policy {R : Type} (t : Nat → AttemptResult R) :
    (send t).delays.length ≤ 3 ∧
    (send t).attempts = 1 + (send t).delays.length ∧
    (send t).delays = (List.range' 1 (send t).delays.length).map (fun n => 1000 * n) ∧
    (∀ e, shouldRetry e = true ↔
      (e.status = none ∨ ∃ s, e.status = some s ∧ 500 ≤ s)) ∧
    (∀ r, t 0 = .ok r → send t = ⟨[], 1, .ok r⟩) ∧
    (∀ e s, t 0 = .err e → e.status = some s → s < 500 → send t = ⟨[], 1, .error e⟩) ∧
    (∀ e₀ e₁ r, t 0 = .err e₀ → shouldRetry e₀ = true →
      t 1 = .err e₁ → shouldRetry e₁ = true → t 2 = .ok r →
      send t = ⟨[1000, 2000], 3, .ok r⟩) := by
  obtain ⟨ha, hl, hd⟩ := sendAux_shape t 3 0
  refine ⟨hl, by simpa using ha, hd, ?_, ?_, ?_, ?_⟩
  · intro e
    cases hs : e.status with
    | none => simp [shouldRetry, hs]
    | some s => simp [shouldRetry, hs]
  · intro r h
    simp [send, sendAux, h]
  · intro e s h hs hlt
    have hr : shouldRetry e = false := by
      simp [shouldRetry, hs]
      omega
    simp [send, sendAux, h, hr]
  · intro e₀ e₁ r h0 hr0 h1 hr1 h2
    simp [send, sendAux, h0, hr0, h1, hr1, h2]

/-- C2 witness: the mock 500-500-ok transport resolves to 42 after 3
attempts with delays 1 s and 2 s, and the always-400 transport rejects
immediately after a single attempt with no delay. -/
theorem c2_transport_retry_policy_witness :
    send mock500 = ⟨[1000, 2000], 3, .ok 42⟩ ∧
    send t400 = ⟨[], 1, .error ⟨some 400, 0⟩⟩ := by
  refine ⟨?_, ?_⟩
  · exact (c2_transport_retry_policy mock500).2.2.2.2.2.2 ⟨some 500, 0⟩ ⟨some 500, 1⟩ 42
      rfl rfl rfl rfl rfl
  · exact (c2_transport_retry_policy t400).2.2.2.2.2.1 ⟨some 400, 0⟩ 400 rfl rfl
      (by omega)

/-- C8: when the transport client rejects (in particular after exhausted
retries), the rejection value is exactly the underlying error object the
transport produced on the final attempt — propagated unchanged, not
wrapped. -/
theorem c8_error_propagated_unchanged {R : Type} (t : Nat → AttemptResult R)
    (e : HttpError) (h : (send t).result = .error e) :
    t ((send t).attempts - 1) = .err e :=
  sendAux_error_src t 3 0 e h

/-- C8 witness: the always-400 transport's rejection value is the very
error object produced by its single attempt. -/
theorem c8_error_propagated_unchanged_witness :
    (send t400).result = .error ⟨some 400, 0⟩ ∧
    t400 ((send t400).attempts - 1) = .err ⟨some 400, 0⟩ :=
  ⟨rfl, c8_error_propagated_unchanged t400 ⟨some 400, 0⟩ rfl⟩

/-! ## Ingestion-controller lemmas -/

theorem bigText_length : bigText.length = 100001 := by
  have h : bigText.length = (List.replicate 100001 'x').length := rfl
  rw [h, List.length_replicate]

/-- C1: a text of at most 100000 characters is decoded inline,
synchronously, and the outcome is exactly what the standard decoder
returns — the parsed structured value on success (handed to `onParsed`),
or the decoder's error on malformed text; a longer text is dispatched to
a freshly constructed background worker and not decoded inline (the
component state carries no decode outcome at dispatch time). -/
theorem c1_size_policy {V : Type} (decode : String → Except String V) (t : String)
    (s : InputState V) :
    (t.length ≤ 100000 →
      (parseWithWorker decode t s).2 = .inline (decode t) ∧
      (parseWithWorker decode t s).1 =
        { parseJSON decode t s with decodeAttempts := s.decodeAttempts + 1 } ∧
      (∀ v, decode t = .ok v →
        (parseWithWorker decode t s).1.doc = some v ∧
        (parseWithWorker decode t s).1.error = none) ∧
      (∀ m, decode t = .error m → (parseWithWorker decode t s).1.error = some m)) ∧
    (100000 < t.length →
      (parseWithWorker decode t s).2 = .dispatched t ∧
      (parseWithWorker decode t s).1 =
        { s with decodeAttempts := s.decodeAttempts + 1,
                 workersSpawned := s.workersSpawned + 1 }) := by
  constructor
  · intro h
    have h' : ¬ 100000 < t.length := by omega
    refine ⟨by simp [parseWithWorker, h'], by simp [parseWithWorker, h'], ?_, ?_⟩
    · intro v hv
      simp [parseWithWorker, h', parseJSON, hv]
    · intro m hm
      simp [parseWithWorker, h', parseJSON, hm]
  · intro h
    exact ⟨by simp [parseWithWorker, h], by simp [parseWithWorker, h]⟩

/-- C1 witness: the 3-character text `"[1]"` is decoded inline to the
value 1, and the 100001-character `bigText` is dispatched. -/
theorem c1_size_policy_witness :
    "[1]".length ≤ 100000 ∧
    (parseWithWorker cDecodeNat "[1]" initState).2 = .inline (cDecodeNat "[1]") ∧
    (parseWithWorker cDecodeNat "[1]" initState).1.doc = some 1 ∧
    100000 < bigText.length ∧
    (parseWithWorker cDecodeNat bigText initState).2 = .dispatched bigText := by
  have h1 : "[1]".length ≤ 100000 := by decide
  have h2 : 100000 < bigText.length := by rw [bigText_length]; omega
  exact ⟨h1, ((c1_size_policy cDecodeNat "[1]" initState).1 h1).1,
    (((c1_size_policy cDecodeNat "[1]" initState).1 h1).2.2.1 1 rfl).1,
    h2, ((c1_size_policy cDecodeNat bigText initState).2 h2).1⟩

/-- C4: a failed decode stores the decoder's message as the error,
never invokes `onParsed`, and leaves the previously accepted
ParsedDocument untouched — on the inline path, on the worker's reply,
and across the whole worker round trip. -/
theorem c4_failed_decode_keeps_last_good {V : Type} (decode : String → Except String V)
    (t m : String) (s : InputState V) (h : decode t = .error m) :
    parseJSON decode t s = { s with error := some m } ∧
    (parseJSON decode t s).doc = s.doc ∧
    (parseJSON decode t s).onParsedCalls = s.onParsedCalls ∧
    workerBody decode t = [.failure m] ∧
    handleWorkerMessage (.failure m) s = { s with error := some m } ∧
    (largeDecode decode t s).1.doc = s.doc ∧
    (largeDecode decode t s).1.onParsedCalls = s.onParsedCalls ∧
    (largeDecode decode t s).1.error = some m := by
  refine ⟨by simp [parseJSON, h], by simp [parseJSON, h], by simp [parseJSON, h],
    by simp [workerBody, h], rfl, ?_, ?_, ?_⟩ <;>
  simp [largeDecode, workerBody, h, handleWorkerMessage]

/-- C4 witness: decoding the malformed text `"oops"` over a state whose
last accepted document is 7 reports the decoder's message and leaves
the document and the `onParsed` log unchanged. -/
theorem c4_failed_decode_keeps_last_good_witness :
    cDecodeNat "oops" = .error "Unexpected token" ∧
    parseJSON cDecodeNat "oops" docState = { docState with error := some "Unexpected token" } ∧
    (parseJSON cDecodeNat "oops" docState).doc = docState.doc ∧
    (largeDecode cDecodeNat "oops" docState).1.doc = docState.doc ∧
    (largeDecode cDecodeNat "oops" docState).1.error = some "Unexpected token" := by
  have c := c4_failed_decode_keeps_last_good cDecodeNat "oops" "Unexpected token" docState rfl
  exact ⟨rfl, c.1, c.2.1, c.2.2.2.2.2.1, c.2.2.2.2.2.2.2⟩

/-- C5: for every text handed to the background decoder, the worker
posts exactly one reply — `{success: true, data}` on a successful parse
and `{success: false, error}` when the decode throws (the exception is
caught inside the worker) — and the per-decode instance trace contains
exactly one spawn and ends with the teardown, after that single reply,
on success and on failure alike. -/
theorem c5_worker_one_reply_then_teardown {V : Type} (decode : String → Except String V)
    (t : String) (s : InputState V) :
    (workerBody decode t).length = 1 ∧
    (∀ v, decode t = .ok v → workerBody decode t = [.success v]) ∧
    (∀ m, decode t = .error m → workerBody decode t = [.failure m]) ∧
    ((largeDecode decode t s).2.filter isSpawn).length = 1 ∧
    ((largeDecode decode t s).2.filter isReply).length = 1 ∧
    (largeDecode decode t s).2.getLast? = some .terminate := by
  cases h : decode t with
  | ok a =>
    refine ⟨by simp [workerBody, h], ?_, ?_,
      by simp [largeDecode, workerBody, h, isSpawn, isReply],
      by simp [largeDecode, workerBody, h, isSpawn, isReply],
      by simp [largeDecode, workerBody, h]⟩
    · intro v hv
      cases hv
      simp [workerBody, h]
    · intro m hm
      cases hm
  | error m0 =>
    refine ⟨by simp [workerBody, h], ?_, ?_,
      by simp [largeDecode, workerBody, h, isSpawn, isReply],
      by simp [largeDecode, workerBody, h, isSpawn, isReply],
      by simp [largeDecode, workerBody, h]⟩
    · intro v hv
      cases hv
    · intro m hm
      cases hm
      simp [workerBody, h]

/-- C5 witness: on `"[1]"` the worker replies once with
`{success: true, data: 1}`; on `"oops"` it replies once with
`{success: false, error}`, and the trace still ends with the teardown. -/
theorem c5_worker_one_reply_then_teardown_witness :
    (workerBody cDecodeNat "[1]").length = 1 ∧
    workerBody cDecodeNat "[1]" = [.success 1] ∧
    workerBody cDecodeNat "oops" = [.failure "Unexpected token"] ∧
    ((largeDecode cDecodeNat "oops" initState).2.filter isSpawn).length = 1 ∧
    (largeDecode cDecodeNat "oops" initState).2.getLast? = some .terminate := by
  have cok := c5_worker_one_reply_then_teardown cDecodeNat "[1]" initState
  have cerr := c5_worker_one_reply_then_teardown cDecodeNat "oops" initState
  exact ⟨cok.1, cok.2.1 1 rfl, cerr.2.2.1 "Unexpected token" rfl,
    cerr.2.2.2.1, cerr.2.2.2.2.2⟩

/-- C6 counterexample: a typed change followed by the 300 ms debounce
window elapsing attempts no decode at all — the claim that typed changes
are decoded after the quiet window fails, because the debounced text is
computed but never fed to any decode. -/
theorem c6_counterexample :
    ¬ 0 < (step cDecodeNat .debounceFire
      (step cDecodeNat (.typing "[1]") initState)).decodeAttempts := by
  decide

/-- C6 (amended): raw-text changes from direct typing never trigger a
decode at all — neither the keystroke nor the 300 ms debounce timer
firing attempts one (the debounced text is computed but unused);
decodes happen only through explicit actions: paste and file upload
decode the new text immediately, the Parse button decodes the current
text when its trim is nonempty, and Load Sample publishes the sample
value without any decode. -/
theorem c6_amended_no_decode_from_typing {V : Type} (decode : String → Except String V)
    (val t text : String) (v : V) (s : InputState V) :
    (step decode (.typing val) s).decodeAttempts = s.decodeAttempts ∧
    (step decode .debounceFire s).decodeAttempts = s.decodeAttempts ∧
    (step decode .debounceFire s).debouncedText = s.rawText ∧
    (step decode (.pasteText t) s).decodeAttempts = s.decodeAttempts + 1 ∧
    (step decode (.uploadText t) s).decodeAttempts = s.decodeAttempts + 1 ∧
    (step decode (.loadSample v text) s).decodeAttempts = s.decodeAttempts ∧
    (isBlank s.rawText = false →
      (step decode .parseClick s).decodeAttempts = s.decodeAttempts + 1) := by
  have hps : ∀ (u : String) (s1 : InputState V),
      (parseWithWorker decode u s1).1.decodeAttempts = s1.decodeAttempts + 1 := by
    intro u s1
    by_cases h : 100000 < u.length
    · simp [parseWithWorker, h]
    · cases hd : decode u <;> simp [parseWithWorker, h, parseJSON, hd]
  refine ⟨rfl, rfl, rfl, hps t _, hps t _, rfl, ?_⟩
  intro h
  simp only [step, h, Bool.false_eq_true, if_false]
  exact hps s.rawText s

/-- C6 witness: with `"[1]"` typed, the Parse button performs exactly
one decode attempt. -/
theorem c6_amended_no_decode_from_typing_witness :
    isBlank typedState.rawText = false ∧
    (step cDecodeNat .parseClick typedState).decodeAttempts =
      typedState.decodeAttempts + 1 := by
  have h : isBlank typedState.rawText = false := by decide
  exact ⟨h, (c6_amended_no_decode_from_typing cDecodeNat "" "" "" 0 typedState).2.2.2.2.2.2 h⟩

/-! ## Windowed-renderer lemmas -/

/-- The last viewport-intersecting row index is at most `ceil(H / R)`
rows past the first one. -/
theorem windowStop_le (H R s : Nat) (hR : 0 < R) :
    (s + H - 1) / R ≤ s / R + (H + R - 1) / R := by
  have hmod := Nat.div_add_mod s R
  have hlt : s % R < R := Nat.mod_lt _ hR
  have h0 : s + H - 1 ≤ (H + R - 2) + (s / R) * R := by
    have hc : (s / R) * R = R * (s / R) := Nat.mul_comm _ _
    omega
  calc (s + H - 1) / R ≤ ((H + R - 2) + (s / R) * R) / R := Nat.div_le_div_right h0
    _ = (H + R - 2) / R + s / R := Nat.add_mul_div_right _ _ hR
    _ ≤ s / R + (H + R - 1) / R := by
      have hmono : (H + R - 2) / R ≤ (H + R - 1) / R :=
        Nat.div_le_div_right (by omega)
      omega

/-- C3: at any scroll position, the number of live presentation row
slots of the windowed renderer is at most `ceil(H / R)` plus the
overscan margin — a bound in which the row count `N` does not occur, for
every `N` (including 10^6). -/
theorem c3_windowed_slot_bound (N H R s o : Nat) (hR : 0 < R) :
    renderedSlotCount N H R s o ≤ ceilDiv H R + overscanMargin o := by
  have key := windowStop_le H R s hR
  unfold renderedSlotCount windowStop windowStart ceilDiv overscanMargin
  generalize (s + H - 1) / R = sp at key ⊢
  generalize s / R = st at key ⊢
  generalize (H + R - 1) / R = cl at key ⊢
  omega

/-- C3 witness: with the component's default viewport (`height = 400`,
`itemSize = 44`) and a million-row collection, the slot count at scroll
offset 123456 with 2 rows of per-side overscan is within the bound. -/
theorem c3_windowed_slot_bound_witness :
    0 < 44 ∧
    renderedSlotCount 1000000 400 44 123456 2 ≤ ceilDiv 400 44 + overscanMargin 2 :=
  ⟨by decide, c3_windowed_slot_bound 1000000 400 44 123456 2 (by decide)⟩

/-- C9: a null or empty row collection renders the single "no data"
placeholder — no header, windowed list or row-count footer — and the
placeholder appears exactly in that case. -/
theorem c9_empty_renders_placeholder (columns : List ColumnSpec) (H R s o : Nat)
    (rows : List (List String)) :
    renderTable none columns H R s o = .noData ∧
    renderTable (some []) columns H R s o = .noData ∧
    (renderTable (some rows) columns H R s o = .noData ↔ rows = []) := by
  refine ⟨rfl, rfl, ?_⟩
  cases rows with
  | nil => simp [renderTable]
  | cons a l => simp [renderTable]

/-! ## Store lemmas -/

/-- C7: each of the four asynchronous operations sets its loading flag
true at dispatch and ends with the flag false whether the settled
transport call resolved or rejected (the reset sits in a `finally`), so
an error cannot leave the flag stuck true. -/
theorem c7_loading_guaranteed_release {V Rt C I : Type} (s : Store V Rt)
    (e : List V) (tx : V) (txs : List V) (cfg : C) (inp : I)
    (rParse : Except HttpError (List V)) (rVal : Except HttpError (List V × List V))
    (rFil : Except HttpError Rt) (rRet : Except HttpError (Rt × Rt)) :
    (setLoading "parse" true s).loading "parse" = true ∧
    (handleSubmit (some e) rParse s).loading "parse" = false ∧
    (handleValidate rVal { s with transactions := tx :: txs }).loading "validate" = false ∧
    (handleFilter (some cfg) rFil { s with transactions := tx :: txs }).loading "filter" = false ∧
    (handleCalculate (some inp) rRet s).loading "returns" = false := by
  refine ⟨by simp [setLoading], ?_, ?_, ?_, ?_⟩
  · cases rParse <;> simp [handleSubmit, setLoading, setTransactions]
  · cases rVal <;> simp [handleValidate, setLoading, setValidationResult]
  · cases rFil <;> simp [handleFilter, setLoading, setFilterResult]
  · cases rRet <;> simp [handleCalculate, setLoading]

/-- C10: `setLoading k v` rewrites exactly the entry `k` of the loading
map to `v`, leaves every other loading key at its previous value, and
leaves every other store slice unchanged. -/
theorem c10_setLoading_frame {V Rt : Type} (s : Store V Rt) (k : String) (v : Bool) :
    (setLoading k v s).loading k = v ∧
    (∀ q, q ≠ k → (setLoading k v s).loading q = s.loading q) ∧
    (setLoading k v s).transactions = s.transactions ∧
    (setLoading k v s).validTransactions = s.validTransactions ∧
    (setLoading k v s).invalidTransactions = s.invalidTransactions ∧
    (setLoading k v s).filterResult = s.filterResult ∧
    (setLoading k v s).npsResult = s.npsResult ∧
    (setLoading k v s).indexResult = s.indexResult ∧
    (setLoading k v s).activeSection = s.activeSection ∧
    (setLoading k v s).performanceMetrics = s.performanceMetrics := by
  refine ⟨by simp [setLoading], ?_, rfl, rfl, rfl, rfl, rfl, rfl, rfl, rfl⟩
  intro q hq
  simp [setLoading, hq]

/-- C10 witness: setting the parse flag on the initial store changes the
parse entry, keeps the validate entry, and keeps the transactions slice. -/
theorem c10_setLoading_frame_witness :
    ("validate" : String) ≠ "parse" ∧
    (setLoading "parse" true initStore).loading "parse" = true ∧
    (setLoading "parse" true initStore).loading "validate" = initStore.loading "validate" ∧
    (setLoading "parse" true initStore).transactions = initStore.transactions :=
  ⟨by decide, (c10_setLoading_frame initStore "parse" true).1,
    (c10_setLoading_frame initStore "parse" true).2.1 "validate" (by decide),
    (c10_setLoading_frame initStore "parse" true).2.2.1⟩

end BlkPipeline
